import Mathlib

/-!
Shallow embedding of `src/app_eng_g.py`, a Streamlit inventory app whose
storage is a remote Google Sheet accessed through `gspread` and `pandas`.

Modelling conventions:
* a worksheet column is a `List String` of cell texts (top to bottom);
* the `items` worksheet's data region (below the fixed header row) is a
  `List RawRow`, one record per sheet row, eight text cells in the fixed
  column order id, date, item_name, item_id, keeper, chip_code, location,
  note; the constant header row (whose first cell is the text "id") never
  equals the all-digit search keys produced by `str(target_id)`, so the
  `ws.find` scans are embedded over the data region;
* `datetime.date` values are `CalDate` (year/month/day numerals);
* ids are nonnegative (they come from `int(datetime.now().timestamp())`),
  so Python `str` on them is plain decimal rendering;
* the pandas coercions `to_numeric(errors="coerce")` and
  `to_datetime(errors="coerce").dt.date` are embedded on the fragments the
  app itself writes: unsigned decimal integers and `YYYY-MM-DD` dates;
  every other cell text is mapped to `none` (pandas null).
-/

/-- Decimal digit character for a value below ten (`'0'` has code 48). -/
def natToDigitChar (d : Nat) : Char := Char.ofNat (48 + d)

/-- Numeric value of a decimal digit character. -/
def digitVal (c : Char) : Nat := c.toNat - 48

/-- Big-endian decimal digit characters of `n` (empty for zero). -/
def digitChars (n : Nat) : List Char := ((Nat.digits 10 n).reverse).map natToDigitChar

/-- Python `str` on a nonnegative integer: plain decimal rendering. -/
def natToString (n : Nat) : String := if n = 0 then "0" else String.mk (digitChars n)

/-- Zero-padded width-`w` decimal digit characters, as `strftime`'s
`%Y`, `%m`, `%d` directives produce. -/
def padChars (w n : Nat) : List Char :=
  List.replicate (w - (digitChars n).length) '0' ++ digitChars n

/-- Zero-padded width-`w` decimal rendering. -/
def padNum (w n : Nat) : String := String.mk (padChars w n)

/-- Decimal value of a nonempty all-digit character list, `none` otherwise.
This embeds the unsigned-decimal-integer fragment of pandas
`to_numeric(errors="coerce")`, the only shape the app writes into the id
column; every other text coerces to null. -/
def charsToNat? (cs : List Char) : Option Nat :=
  if cs.isEmpty then none
  else if cs.all Char.isDigit then some (Nat.ofDigits 10 ((cs.map digitVal).reverse))
  else none

/-- Coercion of an id cell, see `charsToNat?`. -/
def parseNum (s : String) : Option Nat := charsToNat? s.data

/-- Gregorian leap-year test. -/
def isLeap (y : Nat) : Bool := y % 4 == 0 && (y % 100 != 0 || y % 400 == 0)

/-- Number of days in month `m` of year `y`. -/
def daysInMonth (y m : Nat) : Nat :=
  if m == 2 then (if isLeap y then 29 else 28)
  else if m == 4 || m == 6 || m == 9 || m == 11 then 30
  else 31

/-- Calendar date, the embedding of Python `datetime.date` values. -/
structure CalDate where
  year : Nat
  month : Nat
  day : Nat
deriving DecidableEq, Repr

/-- Well-formed calendar date (also within `strftime`'s four-digit year range). -/
def dateValid (d : CalDate) : Bool :=
  1 ≤ d.year && d.year ≤ 9999 && 1 ≤ d.month && d.month ≤ 12 &&
    1 ≤ d.day && d.day ≤ daysInMonth d.year d.month

/-- Embedding of `date.strftime("%Y-%m-%d")`. -/
def formatDate (d : CalDate) : String :=
  padNum 4 d.year ++ "-" ++ padNum 2 d.month ++ "-" ++ padNum 2 d.day

/-- Coercion of a date cell: embeds pandas
`to_datetime(errors="coerce").dt.date` on the `YYYY-MM-DD` shape the app
writes (the only shape `add_data`/`update_data` ever store); any other cell
text coerces to null. -/
def parseDate (s : String) : Option CalDate :=
  match s.data with
  | [y1, y2, y3, y4, h1, m1, m2, h2, d1, d2] =>
    if h1 == '-' && h2 == '-' then
      match charsToNat? [y1, y2, y3, y4], charsToNat? [m1, m2], charsToNat? [d1, d2] with
      | some y, some m, some dd =>
        if dateValid ⟨y, m, dd⟩ then some ⟨y, m, dd⟩ else none
      | _, _, _ => none
    else none
  | _ => none

/-! Round-trip facts for the decimal and date renderings. -/

/-- Embedding of `get_options`: the `try` body reads the first column and
returns `values[1:]` when the column has more than one cell, else `[]`; any
exception from the sheet service (the `Except.error` case) is caught and
yields `[]`. -/
def get_options (col : Except Unit (List String)) : List String :=
  match col with
  | Except.error _ => []
  | Except.ok values => if values.length > 1 then values.drop 1 else []

/-- Embedding of `add_new_option`: scans the whole first column (header cell
included) for `value`; returns `False` without mutation when present,
otherwise appends one row holding `value` and returns `True`. The result
pairs the returned boolean with the column contents afterwards. -/
def add_new_option (col : List String) (value : String) : Bool × List String :=
  if value ∈ col then (false, col) else (true, col ++ [value])

/-!
Items store: the data region of the `items` worksheet is a list of rows of
eight cell texts in the fixed column order A=id, B=date, C=item_name,
D=item_id, E=keeper, F=chip_code, G=location, H=note.
-/

/-- One data row of the `items` worksheet (eight cell texts). -/
structure RawRow where
  id : String
  date : String
  item_name : String
  item_id : String
  keeper : String
  chip_code : String
  location : String
  note : String
deriving DecidableEq, Repr

/-- Embedding of `ws.find(key, in_column=1)` over the data region: the index
of the first row whose first-column cell equals `key`, scanning top to
bottom. (The physical header row's first cell is the constant text "id",
which never equals the all-digit keys `str(target_id)` the app searches
for, so skipping it is faithful.) -/
def wsFind (key : String) : List RawRow → Option Nat
  | [] => none
  | r :: rs => if r.id = key then some 0 else (wsFind key rs).map (· + 1)

/-- One row of the `get_all_data` result: id and date coerced by pandas
(`none` embeds null/NaT), the remaining columns as read. -/
structure Item where
  id : Option Nat
  date : Option CalDate
  item_name : String
  item_id : String
  keeper : String
  chip_code : String
  location : String
  note : String
deriving DecidableEq, Repr

/-- Pandas typed coercion of one raw row, as `get_all_data` applies it:
`pd.to_numeric(errors="coerce")` on the id column and
`pd.to_datetime(errors="coerce").dt.date` on the date column. -/
def rowToItem (r : RawRow) : Item :=
  { id := parseNum r.id, date := parseDate r.date, item_name := r.item_name,
    item_id := r.item_id, keeper := r.keeper, chip_code := r.chip_code,
    location := r.location, note := r.note }

/-- Embedding of `get_all_data`: `ws.get_all_records()` yields every data
row below the header, then the date and id columns are coerced. -/
def get_all_data (t : List RawRow) : List Item := t.map rowToItem

/-- Embedding of `update_data`: `ws.find(str(target_id), in_column=1)` then,
when a cell was found, `ws.update` of range B..H of that row (the id cell in
column A is untouched); silent no-op when `find` returns nothing. -/
def update_data (t : List RawRow) (target_id : Nat) (date : CalDate)
    (item_name item_id keeper chip_code location note : String) : List RawRow :=
  match wsFind (natToString target_id) t with
  | none => t
  | some k =>
    match t[k]? with
    | none => t
    | some r =>
      t.set k { r with
        date := formatDate date
        item_name := item_name
        item_id := item_id
        keeper := keeper
        chip_code := chip_code
        location := location
        note := note }

/-- Embedding of `delete_data`: `ws.find(str(target_id), in_column=1)` then
`ws.delete_rows` of the found row; silent no-op when absent. -/
def delete_data (t : List RawRow) (target_id : Nat) : List RawRow :=
  match wsFind (natToString target_id) t with
  | none => t
  | some k => t.eraseIdx k

/-! Helper lemmas about the row scan. -/

lemma wsFind_eq_none {key : String} {t : List RawRow} (h : ∀ r ∈ t, r.id ≠ key) :
    wsFind key t = none := by
  induction t with
  | nil => rfl
  | cons r rs ih =>
    have hr : r.id ≠ key := h r (List.mem_cons_self r rs)
    simp [wsFind, hr, ih (fun x hx => h x (List.mem_cons_of_mem r hx))]

lemma wsFind_append_first (A : List RawRow) (r : RawRow) (B : List RawRow)
    (key : String) (hA : ∀ a ∈ A, a.id ≠ key) (hr : r.id = key) :
    wsFind key (A ++ r :: B) = some A.length := by
  induction A with
  | nil => simp [wsFind, hr]
  | cons a as ih =>
    have ha : a.id ≠ key := hA a (List.mem_cons_self a as)
    have hrec := ih (fun x hx => hA x (List.mem_cons_of_mem a hx))
    simp [wsFind, ha, hrec]

lemma set_append_len {α : Type} (A : List α) (r x : α) (B : List α) :
    (A ++ r :: B).set A.length x = A ++ x :: B := by
  induction A with
  | nil => rfl
  | cons a as ih => simp [List.set, ih]

lemma eraseIdx_append_len {α : Type} (A : List α) (r : α) (B : List α) :
    (A ++ r :: B).eraseIdx A.length = A ++ B := by
  induction A with
  | nil => rfl
  | cons a as ih => simp [List.eraseIdx, ih]

lemma getElem?_append_len {α : Type} (A : List α) (r : α) (B : List α) :
    (A ++ r :: B)[A.length]? = some r := by
  induction A with
  | nil => simp
  | cons a as ih => simpa using ih

lemma update_data_found (A : List RawRow) (r : RawRow) (B : List RawRow)
    (tid : Nat) (d : CalDate) (nm iid kp cc loc nt : String)
    (hA : ∀ a ∈ A, a.id ≠ natToString tid) (hr : r.id = natToString tid) :
    update_data (A ++ r :: B) tid d nm iid kp cc loc nt =
      A ++ ({ r with
        date := formatDate d
        item_name := nm
        item_id := iid
        keeper := kp
        chip_code := cc
        location := loc
        note := nt }) :: B := by
  unfold update_data
  rw [wsFind_append_first A r B _ hA hr]
  simp only [getElem?_append_len, set_append_len]

lemma update_data_not_found (t : List RawRow) (tid : Nat) (d : CalDate)
    (nm iid kp cc loc nt : String) (h : ∀ a ∈ t, a.id ≠ natToString tid) :
    update_data t tid d nm iid kp cc loc nt = t := by
  unfold update_data
  rw [wsFind_eq_none h]

lemma delete_data_found (A : List RawRow) (r : RawRow) (B : List RawRow)
    (tid : Nat) (hA : ∀ a ∈ A, a.id ≠ natToString tid)
    (hr : r.id = natToString tid) :
    delete_data (A ++ r :: B) tid = A ++ B := by
  unfold delete_data
  rw [wsFind_append_first A r B _ hA hr]
  simp only [eraseIdx_append_len]

lemma delete_data_not_found (t : List RawRow) (tid : Nat)
    (h : ∀ a ∈ t, a.id ≠ natToString tid) :
    delete_data t tid = t := by
  unfold delete_data
  rw [wsFind_eq_none h]

/-!
Save loop, from `main`'s "Save Changes" handler: the edited grid's rows are
visited in order inside one `try` block; each row issues one remote call
(`delete_data` when its Delete? checkbox is set, `update_data` otherwise);
an exception from a call aborts the loop and is shown as an error, with no
rollback of the calls already made.
-/

/-- One row of the edited grid as the save loop reads it. The id is the
hidden system id; the note field holds the text the loop passes on (the
`pd.notna` guard turning an absent cell into `""` has already been
applied). -/
structure EditedRow where
  del : Bool
  id : Nat
  date : CalDate
  item_name : String
  item_id : String
  keeper : String
  chip_code : String
  location : String
  note : String
deriving DecidableEq, Repr

/-- A remote call the save loop can issue. -/
inductive SaveCall where
  | remove (target_id : Nat)
  | write (target_id : Nat) (date : CalDate)
      (item_name item_id keeper chip_code location note : String)
deriving DecidableEq, Repr

/-- The single remote call issued for one edited row: a delete when the
Delete? box is checked, an update otherwise. -/
def rowCall (r : EditedRow) : SaveCall :=
  if r.del then SaveCall.remove r.id
  else SaveCall.write r.id r.date r.item_name r.item_id r.keeper r.chip_code
    r.location r.note

/-- Effect of one remote call on the items worksheet. -/
def applyCall (t : List RawRow) (c : SaveCall) : List RawRow :=
  match c with
  | SaveCall.remove tid => delete_data t tid
  | SaveCall.write tid d nm iid kp cc loc nt =>
    update_data t tid d nm iid kp cc loc nt

/-- Embedding of the "Save Changes" loop. `ok j` tells whether the j-th
issued call succeeds; a failing call raises, has no remote effect, and
aborts the loop (the surrounding `try` turns it into an on-screen error).
The result pairs the final remote sheet with the list of calls issued, the
failing one included. -/
def runSave (t : List RawRow) (rows : List EditedRow) (ok : Nat → Bool) :
    List RawRow × List SaveCall :=
  match rows with
  | [] => (t, [])
  | r :: rs =>
    let c := rowCall r
    if ok 0 then
      let p := runSave (applyCall t c) rs (fun j => ok (j + 1))
      (p.1, c :: p.2)
    else (t, [c])

/-!
Export, from `main`'s "Export" section: the displayed frame minus the
Delete? and id columns, headers renamed, rendered to CSV and encoded as
`utf-8-sig`.
-/

/-- A pandas data frame as `to_csv` consumes it: ordered columns, each a
name paired with its cell texts. -/
abbrev DataFrame := List (String × List String)

/-- Embedding of `df.drop(columns=names)`. -/
def dropCols (names : List String) (df : DataFrame) : DataFrame :=
  df.filter (fun c => !(names.contains c.1))

/-- Embedding of `df.rename(columns=m)`: a column keeps its name when `m`
has no entry for it. -/
def renameCols (m : List (String × String)) (df : DataFrame) : DataFrame :=
  df.map (fun c => ((m.lookup c.1).getD c.1, c.2))

/-- Text a coerced date cell renders to on output (null becomes the empty
cell). -/
def renderDate : Option CalDate → String
  | none => ""
  | some d => formatDate d

/-- Text a coerced id cell renders to on output. -/
def renderNum : Option Nat → String
  | none => ""
  | some n => natToString n

/-- The displayed grid as a data frame: `get_all_data`'s columns with the
"Delete?" checkbox column inserted at position 0 (all cells `False` when
rendered), in the code's column order. -/
def displayFrame (items : List Item) : DataFrame :=
  [("Delete?", items.map (fun _ => "False")),
   ("id", items.map (fun it => renderNum it.id)),
   ("date", items.map (fun it => renderDate it.date)),
   ("item_name", items.map Item.item_name),
   ("item_id", items.map Item.item_id),
   ("keeper", items.map Item.keeper),
   ("chip_code", items.map Item.chip_code),
   ("location", items.map Item.location),
   ("note", items.map Item.note)]

/-- The fixed header rename mapping of the export section. -/
def exportRename : List (String × String) :=
  [("date", "Date"), ("item_name", "Item Name"), ("item_id", "Asset ID"),
   ("keeper", "Keeper"), ("chip_code", "Chip Code"), ("location", "Location"),
   ("note", "Note")]

/-- Embedding of `df.drop(columns=['Delete?', 'id']).rename(columns=...)`. -/
def exportFrame (items : List Item) : DataFrame :=
  renameCols exportRename (dropCols ["Delete?", "id"] (displayFrame items))

/-- Number of rows of a data frame. -/
def frameHeight (df : DataFrame) : Nat :=
  (df.map (fun c => c.2.length)).foldr max 0

/-- Row `i` of a data frame, one cell per column. -/
def frameRow (df : DataFrame) (i : Nat) : List String :=
  df.map (fun c => c.2.getD i "")

/-- Embedding of `df.to_csv(index=False)` for frames whose cells contain no
comma, quote or line break (the only cells this export produces need no
quoting): the comma-separated header line, then one comma-separated line
per row. -/
def toCsv (df : DataFrame) : String :=
  String.intercalate "," (df.map Prod.fst) ++ "\n" ++
    String.join ((List.range (frameHeight df)).map
      (fun i => String.intercalate "," (frameRow df i) ++ "\n"))

/-- UTF-8 encoding of one character, as a list of byte values. -/
def utf8Char (c : Char) : List Nat :=
  let n := c.toNat
  if n < 128 then [n]
  else if n < 2048 then [192 + n / 64, 128 + n % 64]
  else if n < 65536 then [224 + n / 4096, 128 + n / 64 % 64, 128 + n % 64]
  else [240 + n / 262144, 128 + n / 4096 % 64, 128 + n / 64 % 64, 128 + n % 64]

/-- UTF-8 encoding of a text. -/
def utf8Bytes (s : String) : List Nat := (s.data.map utf8Char).flatten

/-- Python `str.encode("utf-8-sig")`: the byte-order mark EF BB BF followed
by the UTF-8 encoding of the text. -/
def encodeUtf8Sig (s : String) : List Nat := [239, 187, 191] ++ utf8Bytes s

/-- The downloadable payload of the export section:
`export_df.to_csv(index=False).encode("utf-8-sig")`. -/
def exportCsvBytes (items : List Item) : List Nat :=
  encodeUtf8Sig (toCsv (exportFrame items))

/-!
Claim theorems.
-/

/-- C2: on an options sheet (header cell present), `add(category, value)`
returns false and leaves the column unmutated when the value is already
present anywhere in it; otherwise it returns true and appends exactly that
value as one new row, after which the value appears in a subsequent
`list(category)`. -/
theorem claim_C2_add_option (col : List String) (v : String) (hcol : col ≠ []) :
    (v ∈ col → add_new_option col v = (false, col)) ∧
    (v ∉ col →
      (add_new_option col v).1 = true ∧
      (add_new_option col v).2 = col ++ [v] ∧
      v ∈ get_options (Except.ok (add_new_option col v).2)) := by
  constructor
  · intro hv
    simp [add_new_option, hv]
  · intro hv
    refine ⟨by simp [add_new_option, hv], by simp [add_new_option, hv], ?_⟩
    have h2 : (add_new_option col v).2 = col ++ [v] := by simp [add_new_option, hv]
    rw [h2]
    obtain ⟨c, cs, rfl⟩ := List.exists_cons_of_ne_nil hcol
    have hlen : (c :: cs ++ [v]).length > 1 := by simp
    simp [get_options, hlen]

/-- Witness for C2 at the column `["chips", "A"]` and the new value `"B"`. -/
theorem claim_C2_add_option_witness :
    (add_new_option ["chips", "A"] "B").1 = true ∧
    (add_new_option ["chips", "A"] "B").2 = ["chips", "A"] ++ ["B"] ∧
    "B" ∈ get_options (Except.ok (add_new_option ["chips", "A"] "B").2) :=
  (claim_C2_add_option ["chips", "A"] "B" (by decide)).2 (by decide)

/-- C5: `list(category)` returns the sheet's first column in order with the
header cell excluded, the empty list when the column has at most one cell,
and the empty list on any exception from the sheet service. -/
theorem claim_C5_get_options (vs : List String) (e : Unit) :
    get_options (Except.error e) = [] ∧
    get_options (Except.ok vs) = vs.drop 1 ∧
    (vs.length ≤ 1 → get_options (Except.ok vs) = []) := by
  refine ⟨rfl, ?_, ?_⟩
  · by_cases h : vs.length > 1
    · simp [get_options, h]
    · have h1 : vs.length ≤ 1 := by omega
      have hdrop : vs.drop 1 = [] := List.drop_eq_nil_of_le h1
      simp [get_options, h, hdrop]
  · intro h1
    have h : ¬ vs.length > 1 := by omega
    simp [get_options, h]

/-- Witness for C5 at the one-cell column `["chips"]`. -/
theorem claim_C5_get_options_witness :
    get_options (Except.ok ["chips"]) = [] :=
  (claim_C5_get_options ["chips"] ()).2.2 (by decide)

/-- Counterexample to C9 as stated: on the sheet `["a", "a"]` the header
cell equals `"a"`, `add` returns false without appending, yet `"a"` does
appear in the listing (it also occurs below the header), so the claim's
conjunct that the value not appear in `list(category)` is false. -/
theorem claim_C9_counterexample :
    add_new_option ["a", "a"] "a" = (false, ["a", "a"]) ∧
    ¬ ("a" ∉ get_options (Except.ok ["a", "a"])) := by decide

/-- C9 (amended): for every options sheet whose header cell equals `v` and
where `v` occurs nowhere among the non-header values, `add(category, v)`
returns false and appends nothing, even though `v` does not appear in the
list returned by `list(category)`: the duplicate check scans the entire
first column including the header, while the listing excludes the header. -/
theorem claim_C9_header_shadow (hd : String) (tl : List String) (v : String)
    (hh : hd = v) (htl : v ∉ tl) :
    add_new_option (hd :: tl) v = (false, hd :: tl) ∧
    v ∉ get_options (Except.ok (hd :: tl)) := by
  subst hh
  constructor
  · simp [add_new_option]
  · simp only [get_options, List.length_cons, gt_iff_lt, List.drop_succ_cons,
      List.drop_zero]
    by_cases hl : tl.length + 1 > 1
    · rw [if_pos hl]
      exact htl
    · rw [if_neg hl]
      exact List.not_mem_nil hd

/-- Witness for the amended C9 at the sheet `["a", "b"]` and value `"a"`. -/
theorem claim_C9_header_shadow_witness :
    add_new_option ["a", "b"] "a" = (false, ["a", "b"]) ∧
    "a" ∉ get_options (Except.ok ["a", "b"]) :=
  claim_C9_header_shadow "a" ["b"] "a" rfl (by decide)

/-- C1: `update(id, fields)` overwrites only the non-id columns of the row
whose id cell matches `str(id)` exactly; the targeted row's id cell and
every other row are unchanged; when no row matches, the table is unchanged
and no error is surfaced (`update_data` is total). The matching row is
taken unique, as the spec's "locates the unique row" prescribes. -/
theorem claim_C1_update_frame (t : List RawRow) (tid : Nat) (d : CalDate)
    (nm iid kp cc loc nt : String) :
    ((∀ x ∈ t, x.id ≠ natToString tid) →
      update_data t tid d nm iid kp cc loc nt = t) ∧
    (∀ A r B, t = A ++ r :: B → r.id = natToString tid →
      (∀ x ∈ A ++ B, x.id ≠ natToString tid) →
      ∃ r' : RawRow,
        update_data t tid d nm iid kp cc loc nt = A ++ r' :: B ∧
        r'.id = r.id ∧ r'.date = formatDate d ∧ r'.item_name = nm ∧
        r'.item_id = iid ∧ r'.keeper = kp ∧ r'.chip_code = cc ∧
        r'.location = loc ∧ r'.note = nt) := by
  constructor
  · intro h
    exact update_data_not_found t tid d nm iid kp cc loc nt h
  · rintro A r B rfl hr hAB
    have hA : ∀ a ∈ A, a.id ≠ natToString tid := fun a ha =>
      hAB a (List.mem_append.mpr (Or.inl ha))
    exact ⟨_, update_data_found A r B tid d nm iid kp cc loc nt hA hr,
      rfl, rfl, rfl, rfl, rfl, rfl, rfl, rfl⟩

/-- Witness for C1: a two-row table where the first row's id cell is "5"
and the second row's is "7"; updating id 5 rewrites the first row's non-id
cells only. -/
theorem claim_C1_update_frame_witness :
    ∃ r' : RawRow,
      update_data [⟨"5", "2024-01-02", "n", "i", "k", "c", "l", "t"⟩,
          ⟨"7", "2024-01-03", "n2", "i2", "k2", "c2", "l2", "t2"⟩] 5
          ⟨2025, 3, 4⟩ "nm" "iid" "kp" "cc" "loc" "nt" =
        [] ++ r' :: [⟨"7", "2024-01-03", "n2", "i2", "k2", "c2", "l2", "t2"⟩] ∧
      r'.id = RawRow.id ⟨"5", "2024-01-02", "n", "i", "k", "c", "l", "t"⟩ ∧
      r'.date = formatDate ⟨2025, 3, 4⟩ ∧ r'.item_name = "nm" ∧
      r'.item_id = "iid" ∧ r'.keeper = "kp" ∧ r'.chip_code = "cc" ∧
      r'.location = "loc" ∧ r'.note = "nt" :=
  (claim_C1_update_frame _ 5 ⟨2025, 3, 4⟩ "nm" "iid" "kp" "cc" "loc" "nt").2
    [] ⟨"5", "2024-01-02", "n", "i", "k", "c", "l", "t"⟩
    [⟨"7", "2024-01-03", "n2", "i2", "k2", "c2", "l2", "t2"⟩]
    rfl (by simp [natToString, digitChars, natToDigitChar])
    (by simp [natToString, digitChars, natToDigitChar])

/-- C3: `delete(id)` removes exactly one row when a row matching `str(id)`
exists, the remaining rows unchanged and the `list_all()` row count one
less; when no row matches the table is unchanged (silent no-op), and in
particular a second delete of the same id is a no-op. -/
theorem claim_C3_delete_semantics (tid : Nat) :
    (∀ t : List RawRow, (∀ x ∈ t, x.id ≠ natToString tid) →
      delete_data t tid = t) ∧
    (∀ A r B, (∀ a ∈ A, a.id ≠ natToString tid) → r.id = natToString tid →
      (∀ b ∈ B, b.id ≠ natToString tid) →
      delete_data (A ++ r :: B) tid = A ++ B ∧
      (get_all_data (delete_data (A ++ r :: B) tid)).length + 1 =
        (get_all_data (A ++ r :: B)).length ∧
      delete_data (delete_data (A ++ r :: B) tid) tid =
        delete_data (A ++ r :: B) tid) := by
  constructor
  · intro t h
    exact delete_data_not_found t tid h
  · intro A r B hA hr hB
    have hdel := delete_data_found A r B tid hA hr
    have hAB : ∀ x ∈ A ++ B, x.id ≠ natToString tid := by
      intro x hx
      rcases List.mem_append.mp hx with h1 | h1
      · exact hA x h1
      · exact hB x h1
    refine ⟨hdel, ?_, ?_⟩
    · simp [hdel, get_all_data]
      omega
    · rw [hdel, delete_data_not_found (A ++ B) tid hAB]

/-- Witness for C3: deleting id 5 from a two-row table removes the
matching first row; a second delete of id 5 changes nothing. -/
theorem claim_C3_delete_semantics_witness :
    delete_data [⟨"5", "2024-01-02", "n", "i", "k", "c", "l", "t"⟩,
        ⟨"7", "2024-01-03", "n2", "i2", "k2", "c2", "l2", "t2"⟩] 5 =
      [] ++ [⟨"7", "2024-01-03", "n2", "i2", "k2", "c2", "l2", "t2"⟩] ∧
    (get_all_data (delete_data [⟨"5", "2024-01-02", "n", "i", "k", "c", "l", "t"⟩,
        ⟨"7", "2024-01-03", "n2", "i2", "k2", "c2", "l2", "t2"⟩] 5)).length + 1 =
      (get_all_data [⟨"5", "2024-01-02", "n", "i", "k", "c", "l", "t"⟩,
        ⟨"7", "2024-01-03", "n2", "i2", "k2", "c2", "l2", "t2"⟩]).length ∧
    delete_data (delete_data [⟨"5", "2024-01-02", "n", "i", "k", "c", "l", "t"⟩,
        ⟨"7", "2024-01-03", "n2", "i2", "k2", "c2", "l2", "t2"⟩] 5) 5 =
      delete_data [⟨"5", "2024-01-02", "n", "i", "k", "c", "l", "t"⟩,
        ⟨"7", "2024-01-03", "n2", "i2", "k2", "c2", "l2", "t2"⟩] 5 :=
  (claim_C3_delete_semantics 5).2
    [] ⟨"5", "2024-01-02", "n", "i", "k", "c", "l", "t"⟩
    [⟨"7", "2024-01-03", "n2", "i2", "k2", "c2", "l2", "t2"⟩]
    (by simp) (by simp [natToString, digitChars, natToDigitChar])
    (by simp [natToString, digitChars, natToDigitChar])

/-- C10: with duplicate id cells (possible, since ids are second-resolution
timestamps), a single `update(id, fields)` rewrites only the first matching
row in sheet order and a single `delete(id)` removes only that row; every
later row with the same id — here the whole suffix `B`, unconstrained — is
left as it was. -/
theorem claim_C10_first_match_only (A : List RawRow) (r : RawRow) (B : List RawRow)
    (tid : Nat) (d : CalDate) (nm iid kp cc loc nt : String)
    (hA : ∀ a ∈ A, a.id ≠ natToString tid) (hr : r.id = natToString tid) :
    (∃ r' : RawRow,
      update_data (A ++ r :: B) tid d nm iid kp cc loc nt = A ++ r' :: B ∧
      r'.id = r.id ∧ r'.date = formatDate d ∧ r'.item_name = nm ∧
      r'.item_id = iid ∧ r'.keeper = kp ∧ r'.chip_code = cc ∧
      r'.location = loc ∧ r'.note = nt) ∧
    delete_data (A ++ r :: B) tid = A ++ B :=
  ⟨⟨_, update_data_found A r B tid d nm iid kp cc loc nt hA hr,
      rfl, rfl, rfl, rfl, rfl, rfl, rfl, rfl⟩,
    delete_data_found A r B tid hA hr⟩

/-- Witness for C10: two rows share the id cell "9"; update and delete of
id 9 touch only the first, leaving the duplicate untouched. -/
theorem claim_C10_first_match_only_witness :
    (∃ r' : RawRow,
      update_data ([] ++ ⟨"9", "2024-01-02", "n", "i", "k", "c", "l", "t"⟩ ::
          [⟨"9", "2024-01-03", "n2", "i2", "k2", "c2", "l2", "t2"⟩]) 9
          ⟨2025, 3, 4⟩ "nm" "iid" "kp" "cc" "loc" "nt" =
        [] ++ r' :: [⟨"9", "2024-01-03", "n2", "i2", "k2", "c2", "l2", "t2"⟩] ∧
      r'.id = RawRow.id ⟨"9", "2024-01-02", "n", "i", "k", "c", "l", "t"⟩ ∧
      r'.date = formatDate ⟨2025, 3, 4⟩ ∧ r'.item_name = "nm" ∧
      r'.item_id = "iid" ∧ r'.keeper = "kp" ∧ r'.chip_code = "cc" ∧
      r'.location = "loc" ∧ r'.note = "nt") ∧
    delete_data ([] ++ ⟨"9", "2024-01-02", "n", "i", "k", "c", "l", "t"⟩ ::
        [⟨"9", "2024-01-03", "n2", "i2", "k2", "c2", "l2", "t2"⟩]) 9 =
      [] ++ [⟨"9", "2024-01-03", "n2", "i2", "k2", "c2", "l2", "t2"⟩] :=
  claim_C10_first_match_only
    [] ⟨"9", "2024-01-02", "n", "i", "k", "c", "l", "t"⟩
    [⟨"9", "2024-01-03", "n2", "i2", "k2", "c2", "l2", "t2"⟩]
    9 ⟨2025, 3, 4⟩ "nm" "iid" "kp" "cc" "loc" "nt"
    (by simp) (by simp [natToString, digitChars, natToDigitChar])

lemma runSave_all_ok (rows : List EditedRow) (t : List RawRow) (ok : Nat → Bool)
    (h : ∀ j, j < rows.length → ok j = true) :
    runSave t rows ok = ((rows.map rowCall).foldl applyCall t, rows.map rowCall) := by
  induction rows generalizing t ok with
  | nil => rfl
  | cons r rs ih =>
    have h0 : ok 0 = true := h 0 (by simp)
    have hrec := ih (applyCall t (rowCall r)) (fun j => ok (j + 1))
      (fun j hj => h (j + 1) (by simpa using Nat.succ_lt_succ hj))
    simp [runSave, h0, hrec]

lemma runSave_fail (rows : List EditedRow) (t : List RawRow) (ok : Nat → Bool)
    (k : Nat) (hk : k < rows.length) (hbefore : ∀ j, j < k → ok j = true)
    (hfail : ok k = false) :
    runSave t rows ok = (((rows.take k).map rowCall).foldl applyCall t,
      (rows.take (k + 1)).map rowCall) := by
  induction rows generalizing t ok k with
  | nil => simp at hk
  | cons r rs ih =>
    cases k with
    | zero => simp [runSave, hfail]
    | succ l =>
      have h0 : ok 0 = true := hbefore 0 (Nat.succ_pos _)
      have hrec := ih (applyCall t (rowCall r)) (fun j => ok (j + 1)) l
        (by simpa using Nat.lt_of_succ_lt_succ hk)
        (fun j hj => hbefore (j + 1) (Nat.succ_lt_succ hj))
        hfail
      simp [runSave, h0, hrec]

/-- C8: the save loop issues exactly one remote call per edited row in row
order — a delete for rows whose Delete? box is checked, otherwise an update
(`rowCall`); when every call succeeds the issued calls are exactly the rows'
calls in order and the remote sheet is their left fold; when the call for
row `k` fails, the calls issued are exactly those of rows 0..k (nothing
after row `k`), and the remote sheet holds the effects of the calls before
`k` only — no rollback. -/
theorem claim_C8_save_sequence (t : List RawRow) (rows : List EditedRow)
    (ok : Nat → Bool) :
    ((∀ j, j < rows.length → ok j = true) →
      runSave t rows ok = ((rows.map rowCall).foldl applyCall t, rows.map rowCall)) ∧
    (∀ k, k < rows.length → (∀ j, j < k → ok j = true) → ok k = false →
      runSave t rows ok = (((rows.take k).map rowCall).foldl applyCall t,
        (rows.take (k + 1)).map rowCall)) :=
  ⟨fun h => runSave_all_ok rows t ok h,
    fun k hk hb hf => runSave_fail rows t ok k hk hb hf⟩

/-- Witness for C8: two edited rows (an update then a delete) with the
second call failing: only the first row's update is applied, and the issued
calls are the first two. -/
theorem claim_C8_save_sequence_witness :
    runSave [] [⟨false, 5, ⟨2024, 6, 15⟩, "n", "i", "k", "c", "l", "t"⟩,
        ⟨true, 7, ⟨2024, 6, 16⟩, "n2", "i2", "k2", "c2", "l2", "t2"⟩]
      (fun j => j == 0) =
    ((([⟨false, 5, ⟨2024, 6, 15⟩, "n", "i", "k", "c", "l", "t"⟩,
        ⟨true, 7, ⟨2024, 6, 16⟩, "n2", "i2", "k2", "c2", "l2", "t2"⟩].take 1).map
          rowCall).foldl applyCall [],
      ([⟨false, 5, ⟨2024, 6, 15⟩, "n", "i", "k", "c", "l", "t"⟩,
        ⟨true, 7, ⟨2024, 6, 16⟩, "n2", "i2", "k2", "c2", "l2", "t2"⟩].take 2).map
          rowCall) :=
  (claim_C8_save_sequence [] [⟨false, 5, ⟨2024, 6, 15⟩, "n", "i", "k", "c", "l", "t"⟩,
      ⟨true, 7, ⟨2024, 6, 16⟩, "n2", "i2", "k2", "c2", "l2", "t2"⟩]
    (fun j => j == 0)).2 1 (by decide) (by decide) (by decide)

/-- C7: the export frame's columns are exactly the seven renamed headers in
order — Date, Item Name, Asset ID, Keeper, Chip Code, Location, Note — with
the id and Delete? columns absent, and the downloadable payload is the CSV
text's UTF-8 bytes prefixed with the byte-order mark EF BB BF. -/
theorem claim_C7_export_shape (items : List Item) :
    (exportFrame items).map Prod.fst =
      ["Date", "Item Name", "Asset ID", "Keeper", "Chip Code", "Location", "Note"] ∧
    "id" ∉ (exportFrame items).map Prod.fst ∧
    "Delete?" ∉ (exportFrame items).map Prod.fst ∧
    (exportCsvBytes items).take 3 = [239, 187, 191] ∧
    (exportCsvBytes items).drop 3 = utf8Bytes (toCsv (exportFrame items)) := by
  have hnames : (exportFrame items).map Prod.fst =
      ["Date", "Item Name", "Asset ID", "Keeper", "Chip Code", "Location", "Note"] := by
    simp [exportFrame, dropCols, renameCols, displayFrame, exportRename]
    decide
  refine ⟨hnames, ?_, ?_, rfl, rfl⟩
  · rw [hnames]
    decide
  · rw [hnames]
    decide
